import Mathlib

/-!
Shallow embedding of `src/src-tauri/src/lib.rs` (a Tauri backend exposing two
commands, `greet` and `list_files`) together with proofs of the specified
properties.

The filesystem is modelled as an oracle (`FileSystem`) supplying the three
primitives the Rust code consults: `Path::exists`, `Path::is_dir` and
`fs::read_dir`.  Directory enumeration yields, per entry, either an I/O error
message (Rust: iterating `ReadDir` yields `io::Result<DirEntry>`) or a raw OS
name (`OsString`) that may or may not be valid UTF-8.  Rust's
`Iterator::collect::<Result<Vec<_>, _>>()` short-circuits at the first error;
this is `List.mapM` in the `Except` monad.
-/

namespace TauriApp

/-- `greet` from `src/src-tauri/src/lib.rs`:
`format!("Hello, {name}! You've been greeted from Rust!")`. -/
def greet (name : String) : String :=
  "Hello, " ++ name ++ "! You've been greeted from Rust!"

/-- A raw OS entry name (Rust `OsString`): either valid UTF-8, carrying the
decoded text, or not valid UTF-8, carrying the rendering that Rust's `Debug`
formatting (`{name:?}`) produces for it. -/
inductive OsName where
  | utf8 (s : String)
  | nonUtf8 (rendered : String)
deriving DecidableEq

/-- Rust `OsString::into_string`: `Ok` with the text when the name is valid
UTF-8, otherwise `Err` returning the original `OsString`. -/
def OsName.into_string : OsName → Except OsName String
  | .utf8 s => Except.ok s
  | .nonUtf8 r => Except.error (.nonUtf8 r)

/-- Rust `Debug` formatting of an `OsString` (the `{name:?}` interpolation):
valid UTF-8 names render quoted; non-UTF-8 names render as their stored
`Debug` text. -/
def OsName.debugFmt : OsName → String
  | .utf8 s => "\"" ++ s ++ "\""
  | .nonUtf8 r => r

/-- Oracle for the filesystem primitives consulted by `list_files`:
`pathExists` is `Path::exists`, `isDir` is `Path::is_dir`, and `readDir` is
`fs::read_dir` followed by draining the `ReadDir` iterator — an error message
when opening the directory fails, else the list of per-entry results (each
entry either an I/O error message or a raw name). -/
structure FileSystem where
  pathExists : String → Bool
  isDir : String → Bool
  readDir : String → Except String (List (Except String OsName))

/-- The per-entry closure inside `list_files`'s iterator chain:
`entry.map_err(|e| format!("Failed to read entry: {e}")).and_then(|e|
e.file_name().into_string().map_err(|name| format!("Non-UTF-8 filename:
{name:?}")))`. -/
def decodeEntry (entry : Except String OsName) : Except String String :=
  (Except.mapError (fun e => "Failed to read entry: " ++ e) entry).bind fun e =>
    match OsName.into_string e with
    | Except.ok s => Except.ok s
    | Except.error name => Except.error ("Non-UTF-8 filename: " ++ OsName.debugFmt name)

/-- `list_files` from `src/src-tauri/src/lib.rs`, over the filesystem oracle:
reject a non-existent path, then a non-directory path, then open the
directory (propagating its failure with the `Failed to read directory` text),
then decode every entry, collecting into a single `Result` that
short-circuits at the first per-entry failure. -/
def list_files (fs : FileSystem) (path : String) : Except String (List String) :=
  if !fs.pathExists path then
    Except.error ("Path does not exist: " ++ path)
  else if !fs.isDir path then
    Except.error ("Path is not a directory: " ++ path)
  else
    match fs.readDir path with
    | Except.error e => Except.error ("Failed to read directory '" ++ path ++ "': " ++ e)
    | Except.ok entries => entries.mapM decodeEntry

/-- A concrete filesystem used to instantiate the theorems:
`/dir` holds `a.txt` and `sub`; `/bad` holds one good entry and one
non-UTF-8 entry; `/empty` is an empty directory; `/file` is a regular file;
everything else does not exist. -/
def demoFS : FileSystem where
  pathExists := fun p => p == "/dir" || p == "/bad" || p == "/empty" || p == "/file"
  isDir := fun p => p == "/dir" || p == "/bad" || p == "/empty"
  readDir := fun p =>
    if p == "/dir" then Except.ok [Except.ok (.utf8 "a.txt"), Except.ok (.utf8 "sub")]
    else if p == "/bad" then Except.ok [Except.ok (.utf8 "good"), Except.ok (.nonUtf8 "bytes")]
    else if p == "/empty" then Except.ok []
    else Except.error "io error"

/-- Decoding a list of entries that are all successfully read, valid-UTF-8
names succeeds and returns exactly those names in order. -/
theorem mapM_decodeEntry_utf8 (names : List String) :
    (names.map fun s => Except.ok (OsName.utf8 s)).mapM decodeEntry = Except.ok names := by
  rw [← List.mapM'_eq_mapM]
  induction names with
  | nil => rfl
  | cons a as ih =>
    simp only [List.map_cons, List.mapM', ih, decodeEntry, OsName.into_string,
      Except.mapError]
    rfl

/-- Decoding a list of entries that are all successfully read but contain at
least one non-UTF-8 name fails with a `Non-UTF-8 filename` error. -/
theorem mapM_decodeEntry_bad (entries : List (Except String OsName))
    (hok : ∀ e ∈ entries, ∃ n, e = Except.ok n)
    (hbad : ∃ r, Except.ok (OsName.nonUtf8 r) ∈ entries) :
    ∃ r, entries.mapM decodeEntry = Except.error ("Non-UTF-8 filename: " ++ r) := by
  rw [← List.mapM'_eq_mapM]
  induction entries with
  | nil =>
    obtain ⟨r, h⟩ := hbad
    cases h
  | cons a as ih =>
    obtain ⟨n, rfl⟩ := hok a (List.mem_cons_self _ _)
    cases n with
    | nonUtf8 r =>
      refine ⟨r, ?_⟩
      simp only [List.mapM', decodeEntry, OsName.into_string, OsName.debugFmt,
        Except.mapError]
      rfl
    | utf8 s =>
      have hok' : ∀ e ∈ as, ∃ n, e = Except.ok n := fun e he =>
        hok e (List.mem_cons_of_mem _ he)
      have hbad' : ∃ r, Except.ok (OsName.nonUtf8 r) ∈ as := by
        obtain ⟨r, h⟩ := hbad
        rcases List.mem_cons.mp h with h1 | h1
        · cases h1
        · exact ⟨r, h1⟩
      obtain ⟨r, hr⟩ := ih hok' hbad'
      refine ⟨r, ?_⟩
      simp only [List.mapM', decodeEntry, OsName.into_string, Except.mapError, hr]
      rfl

/-- Claim C1: for every name string `n`, `greet n` returns exactly the string
`"Hello, " ++ n ++ "! You've been greeted from Rust!"` — the fixed template
with `n` interpolated and `Rust` as the backend. -/
theorem greet_spec (n : String) :
    greet n = "Hello, " ++ n ++ "! You've been greeted from Rust!" := rfl

/-- Claim C7: `greet ""` succeeds (empty name is not an error) and returns
exactly `"Hello, ! You've been greeted from Rust!"`. -/
theorem greet_empty : greet "" = "Hello, ! You've been greeted from Rust!" := rfl

/-- Claim C8: `greet` is total and deterministic with no error path: for every
name the call produces a result string, and two invocations with equal name
arguments return identical result strings. -/
theorem greet_total_deterministic (n₁ n₂ : String) (h : n₁ = n₂) :
    (∃ out, greet n₁ = out) ∧ greet n₁ = greet n₂ :=
  ⟨⟨greet n₁, rfl⟩, h ▸ rfl⟩

/-- Witness for C8 at the concrete name `"Rustacean"`. -/
theorem greet_total_deterministic_witness :
    (∃ out, greet "Rustacean" = out) ∧ greet "Rustacean" = greet "Rustacean" :=
  greet_total_deterministic "Rustacean" "Rustacean" rfl

/-- Claim C10: the greeting embeds the input verbatim — for every name `n`,
`greet n` is the fixed text `"Hello, "`, then `n` as a contiguous substring,
then the fixed text `"! You've been greeted from Rust!"`; consequently `greet`
is injective (distinct names yield distinct greetings). -/
theorem greet_verbatim_injective :
    (∀ n : String, ∃ s t, s = "Hello, " ∧ t = "! You've been greeted from Rust!" ∧
      greet n = s ++ n ++ t) ∧
    ∀ a b : String, greet a = greet b → a = b := by
  constructor
  · intro n
    exact ⟨_, _, rfl, rfl, rfl⟩
  · intro a b h
    have h2 := congrArg String.data h
    simp only [greet, String.data_append] at h2
    have h3 := List.append_cancel_right h2
    have h4 := List.append_cancel_left h3
    cases a
    cases b
    simp_all

/-- Witness for C10 (injectivity arm) at the concrete name `"Alice"`. -/
theorem greet_verbatim_injective_witness : ("Alice" : String) = "Alice" :=
  greet_verbatim_injective.2 "Alice" "Alice" rfl

/-- Claim C3: for every path `p` that does not exist, `list_files` fails with
the `PathNotFound` error, whose message contains `p` verbatim, and this check
takes precedence over every later check: the filesystem oracle's `isDir` and
`readDir` are arbitrary here, so no other error kind is ever returned for a
nonexistent path. -/
theorem list_files_path_not_found (fs : FileSystem) (p : String)
    (h : fs.pathExists p = false) :
    list_files fs p = Except.error ("Path does not exist: " ++ p) ∧
    ∃ s t, "Path does not exist: " ++ p = s ++ p ++ t := by
  refine ⟨?_, "Path does not exist: ", "", by simp⟩
  simp [list_files, h]

/-- Witness for C3 at the concrete path `/missing` of the demo filesystem. -/
theorem list_files_path_not_found_witness :
    list_files demoFS "/missing" = Except.error ("Path does not exist: " ++ "/missing") ∧
    ∃ s t, "Path does not exist: " ++ "/missing" = s ++ "/missing" ++ t :=
  list_files_path_not_found demoFS "/missing" rfl

/-- Claim C4: for every path `p` that exists but is not a directory,
`list_files` fails with the `NotADirectory` error; the filesystem oracle's
`readDir` is arbitrary here, so this is decided before any enumeration is
attempted. -/
theorem list_files_not_a_directory (fs : FileSystem) (p : String)
    (hex : fs.pathExists p = true) (hdir : fs.isDir p = false) :
    list_files fs p = Except.error ("Path is not a directory: " ++ p) := by
  simp [list_files, hex, hdir]

/-- Witness for C4 at the concrete regular file `/file` of the demo
filesystem. -/
theorem list_files_not_a_directory_witness :
    list_files demoFS "/file" = Except.error ("Path is not a directory: " ++ "/file") :=
  list_files_not_a_directory demoFS "/file" rfl rfl

/-- Claim C9 (implicit): the `NotADirectory` failure message also identifies
the offending path — for every existing non-directory path `p`, the error
string returned contains `p` verbatim. -/
theorem list_files_not_a_directory_message (fs : FileSystem) (p : String)
    (hex : fs.pathExists p = true) (hdir : fs.isDir p = false) :
    ∃ s t, list_files fs p = Except.error (s ++ p ++ t) := by
  refine ⟨"Path is not a directory: ", "", ?_⟩
  simp [list_files, hex, hdir]

/-- Witness for C9 at the concrete regular file `/file` of the demo
filesystem. -/
theorem list_files_not_a_directory_message_witness :
    ∃ s t, list_files demoFS "/file" = Except.error (s ++ "/file" ++ t) :=
  list_files_not_a_directory_message demoFS "/file" rfl rfl

/-- Claim C5: for every existing, readable directory whose entries are all
successfully read and carry valid-UTF-8 names, `list_files` succeeds and
returns the decoded names as an ordered sequence in exactly the order the
underlying filesystem enumeration yields them, one name per enumerated
entry. -/
theorem list_files_success_order (fs : FileSystem) (p : String) (names : List String)
    (hex : fs.pathExists p = true) (hdir : fs.isDir p = true)
    (hrd : fs.readDir p = Except.ok (names.map fun s => Except.ok (OsName.utf8 s))) :
    list_files fs p = Except.ok names := by
  have hls : list_files fs p
      = (names.map fun s => Except.ok (OsName.utf8 s)).mapM decodeEntry := by
    simp [list_files, hex, hdir, hrd]
  rw [hls]
  exact mapM_decodeEntry_utf8 names

/-- Witness for C5 at the concrete directory `/dir` of the demo filesystem,
holding `a.txt` then `sub`. -/
theorem list_files_success_order_witness :
    list_files demoFS "/dir" = Except.ok ["a.txt", "sub"] :=
  list_files_success_order demoFS "/dir" ["a.txt", "sub"] rfl rfl rfl

/-- Claim C6: for every path `p` that is an empty, readable directory,
`list_files fs p` succeeds and returns the empty sequence. -/
theorem list_files_empty_dir (fs : FileSystem) (p : String)
    (hex : fs.pathExists p = true) (hdir : fs.isDir p = true)
    (hrd : fs.readDir p = Except.ok []) :
    list_files fs p = Except.ok [] := by
  simp [list_files, hex, hdir, hrd]
  rfl

/-- Witness for C6 at the concrete empty directory `/empty` of the demo
filesystem. -/
theorem list_files_empty_dir_witness :
    list_files demoFS "/empty" = Except.ok [] :=
  list_files_empty_dir demoFS "/empty" rfl rfl rfl

/-- Claim C2: for every path whose directory enumeration succeeds and yields
entries that are all read successfully, at least one of which has a name that
is not valid UTF-8, `list_files` fails the entire call with the
`InvalidEntryName` error (`Non-UTF-8 filename: ...`) and returns no list at
all — no partial sequence of the decodable names is ever returned. -/
theorem list_files_invalid_entry_name (fs : FileSystem) (p : String)
    (entries : List (Except String OsName))
    (hex : fs.pathExists p = true) (hdir : fs.isDir p = true)
    (hrd : fs.readDir p = Except.ok entries)
    (hok : ∀ e ∈ entries, ∃ n, e = Except.ok n)
    (hbad : ∃ r, Except.ok (OsName.nonUtf8 r) ∈ entries) :
    (∃ r, list_files fs p = Except.error ("Non-UTF-8 filename: " ++ r)) ∧
    ∀ l, list_files fs p ≠ Except.ok l := by
  have hmain : ∃ r, list_files fs p = Except.error ("Non-UTF-8 filename: " ++ r) := by
    obtain ⟨r, hr⟩ := mapM_decodeEntry_bad entries hok hbad
    refine ⟨r, ?_⟩
    have hls : list_files fs p = entries.mapM decodeEntry := by
      simp [list_files, hex, hdir, hrd]
    rw [hls]
    exact hr
  refine ⟨hmain, ?_⟩
  obtain ⟨r, hr⟩ := hmain
  intro l hl
  rw [hr] at hl
  cases hl

/-- Witness for C2 at the concrete directory `/bad` of the demo filesystem,
whose second entry has a non-UTF-8 name. -/
theorem list_files_invalid_entry_name_witness :
    (∃ r, list_files demoFS "/bad" = Except.error ("Non-UTF-8 filename: " ++ r)) ∧
    ∀ l, list_files demoFS "/bad" ≠ Except.ok l :=
  list_files_invalid_entry_name demoFS "/bad"
    [Except.ok (.utf8 "good"), Except.ok (.nonUtf8 "bytes")] rfl rfl rfl
    (fun e he => by
      rcases List.mem_cons.mp he with h1 | h1
      · exact ⟨_, h1⟩
      · rcases List.mem_cons.mp h1 with h2 | h2
        · exact ⟨_, h2⟩
        · cases h2)
    ⟨"bytes", List.mem_cons_of_mem _ (List.mem_cons_self _ _)⟩

end TauriApp
